import Mathlib

/-
Verification of the Flashbots documentation repository.

Part 1 embeds the TypeScript example code of the MEV-Share tutorial page
(the guide "Using Events"): the pending-transaction shape shown by the
event stream, the pair-filtering predicate `transactionIsRelatedToPair`,
and the ERC-20 approval helper `approveTokenToRouter`.

Part 2 embeds the webpack bundle chunk `4c4ecbe6.b82ca909.js`: the MDX
page module 5449 (the code-of-conduct page) together with the runtime
helpers it calls (`extends` from module 7462, `objectWithoutProperties`
from module 3366, and the `kt` element factory from module 3905).

JavaScript values are modelled shallowly: `null`/`undefined` fields become
`Option`, BigInt amounts become `Nat`, strict string equality `===`
becomes Lean string equality, and effects (console output, `process.exit`,
sending a transaction) become an explicit action datatype.
-/

namespace MevShareTutorial

/-- A log entry of a pending-transaction event: the tutorial's sample
output shows `address`, `topics` and `data` fields; only `address` is
inspected by the example code. -/
structure Log where
  address : String
  topics : List String
  data : String
  deriving DecidableEq, Repr

/-- The `IPendingTransaction` shape used by the tutorial snippet, with the
fields visible in the sample event dump: `hash`, `logs`, `to`,
`functionSelector`, `callData`, `gasUsed`, `mevGasPrice`.  A `null` or
`undefined` field is `none`. -/
structure IPendingTransaction where
  hash : String
  logs : Option (List Log)
  «to» : Option String
  functionSelector : Option String
  callData : Option String
  gasUsed : Option Nat
  mevGasPrice : Option Nat
  deriving DecidableEq, Repr

/-- Embedding of the tutorial's filter:
`pendingTx.«to» === PAIR_ADDRESS || ((pendingTx.logs || []).some(log => log.address === PAIR_ADDRESS))`.
In JavaScript `null === PAIR_ADDRESS` is `false`, which the `Option`
equality `tx.«to» == some P` reproduces; `pendingTx.logs || []` replaces an
absent (`undefined`/`null`) logs array by the empty array, which
`Option.getD` reproduces. -/
def transactionIsRelatedToPair (pendingTx : IPendingTransaction)
    (PAIR_ADDRESS : String) : Bool :=
  (pendingTx.«to» == some PAIR_ADDRESS) ||
    ((pendingTx.logs.getD []).any fun log => log.address == PAIR_ADDRESS)

/-- The observable action taken by one run of `approveTokenToRouter`,
after the two reads (`allowance`, `balanceOf`) have returned. -/
inductive ApproveAction where
  | exitProcess (code : Nat)
  | alreadyApproved
  | sendApprove (amount : Nat)
  deriving DecidableEq, Repr

/-- Embedding of the tutorial's `approveTokenToRouter`, as a function of
the two values read from the token contract: if `balance == 0n` it logs an
error and calls `process.exit(1)`; if `allowance >= balance` it returns
without sending anything; otherwise it sends `approve(router, 2n**256n - 1n)`. -/
def approveTokenToRouter (balance allowance : Nat) : ApproveAction :=
  if balance = 0 then .exitProcess 1
  else if allowance ≥ balance then .alreadyApproved
  else .sendApprove (2 ^ 256 - 1)

/-- A transaction like the first sample event of the tutorial: `to` is
`null`, and `logs` is absent in this variant. -/
def sampleNullTx : IPendingTransaction :=
  { hash := "0x26aba6f3c5083d58915161efb0cd0f713418cdd7a95425cdde451efd1dfb5dff"
    logs := none
    «to» := none
    functionSelector := none
    callData := none
    gasUsed := none
    mevGasPrice := none }

/-- Embedding of JavaScript `String.prototype.toLowerCase` as `main`
applies it to the ASCII pair address returned by `getPair`: each character
is lowercased. -/
def toLowerCase (s : String) : String := ⟨s.data.map Char.toLower⟩

/-- The WETH/DAI pair address as `main` uses it, lowercased. -/
def pairLower : String := "0xa478c2975ab1ea89e8196811f51a7b7ade33eb11"

/-- The checksummed (mixed-case) form of the same pair address, as shown
in the guide's link to the WETH/DAI pair contract. -/
def pairChecksummed : String := "0xA478c2975Ab1Ea89e8196811F51A7B7Ade33eB11"

/-- A pending transaction whose `to` is the checksummed pair address and
whose shared logs array is empty. -/
def checksummedTx : IPendingTransaction :=
  { hash := "0x01"
    logs := some []
    «to» := some pairChecksummed
    functionSelector := none
    callData := none
    gasUsed := none
    mevGasPrice := none }

/-- Two transactions that agree on `to` and `logs` but differ in every
other field, used to witness that the filter reads nothing else. -/
def txVariantA : IPendingTransaction :=
  { hash := "0xaaaa"
    logs := some [{ address := pairLower, topics := [], data := "0x" }]
    «to» := none
    functionSelector := some "0x022c0d9f"
    callData := some "0x022c0d9f00"
    gasUsed := some 21000
    mevGasPrice := some 1 }

/-- See `txVariantA`: same `to` and `logs`, different remaining fields. -/
def txVariantB : IPendingTransaction :=
  { hash := "0xbbbb"
    logs := some [{ address := pairLower, topics := [], data := "0x" }]
    «to» := none
    functionSelector := none
    callData := none
    gasUsed := none
    mevGasPrice := some 99 }

/-- C1: `transactionIsRelatedToPair tx P` is `true` exactly when `tx.to`
is strictly equal to `P`, or `tx.logs` is present and contains a log whose
`address` equals `P`; in every other case it is `false`. -/
theorem transactionIsRelatedToPair_iff (tx : IPendingTransaction) (P : String) :
    transactionIsRelatedToPair tx P = true ↔
      tx.«to» = some P ∨ ∃ ls, tx.logs = some ls ∧ ∃ log ∈ ls, log.address = P := by
  unfold transactionIsRelatedToPair
  cases h : tx.logs with
  | none => simp [h]
  | some ls => simp [h, List.any_eq_true]

/-- C2: the filter is a total boolean function of its input — in
particular, when the `logs` field is absent it is treated as the empty
array, so the result is decided by the `to` comparison alone (and on a
transaction with `to` null and `logs` absent the result is a boolean,
namely `false`, rather than an exception; the embedding is a total
function, so no run can throw). -/
theorem transactionIsRelatedToPair_total_noLogs (tx : IPendingTransaction)
    (P : String) (h : tx.logs = none) :
    (transactionIsRelatedToPair tx P = true ∨
      transactionIsRelatedToPair tx P = false) ∧
      transactionIsRelatedToPair tx P = (tx.«to» == some P) := by
  refine ⟨Bool.eq_false_or_eq_true _, ?_⟩
  · unfold transactionIsRelatedToPair
    simp [h]

/-- Witness for C2 at the tutorial's first sample event (null `to`, absent
`logs`): the call returns `false`. -/
theorem transactionIsRelatedToPair_total_noLogs_witness :
    ((transactionIsRelatedToPair sampleNullTx pairLower = true ∨
      transactionIsRelatedToPair sampleNullTx pairLower = false) ∧
      transactionIsRelatedToPair sampleNullTx pairLower =
        (sampleNullTx.«to» == some pairLower)) ∧
      transactionIsRelatedToPair sampleNullTx pairLower = false :=
  ⟨transactionIsRelatedToPair_total_noLogs sampleNullTx pairLower rfl, by decide⟩

/-- C3: the filter depends on nothing but the `to` and `logs` fields: two
pending transactions that agree on those two fields get the same verdict
for every pair address, whatever their `hash`, `callData`,
`functionSelector`, `gasUsed` or `mevGasPrice`; and as a pure function it
returns the same value on every call with the same input. -/
theorem transactionIsRelatedToPair_depends_only_on_to_logs
    (tx₁ tx₂ : IPendingTransaction) (P : String)
    (hto : tx₁.«to» = tx₂.«to») (hlogs : tx₁.logs = tx₂.logs) :
    transactionIsRelatedToPair tx₁ P = transactionIsRelatedToPair tx₂ P := by
  unfold transactionIsRelatedToPair
  rw [hto, hlogs]

/-- Witness for C3: `txVariantA` and `txVariantB` differ in `hash`,
`functionSelector`, `callData`, `gasUsed` and `mevGasPrice` yet receive
the same verdict (here `true`, via the shared log). -/
theorem transactionIsRelatedToPair_depends_only_on_to_logs_witness :
    transactionIsRelatedToPair txVariantA pairLower =
      transactionIsRelatedToPair txVariantB pairLower ∧
      transactionIsRelatedToPair txVariantA pairLower = true ∧
      txVariantA ≠ txVariantB :=
  ⟨transactionIsRelatedToPair_depends_only_on_to_logs txVariantA txVariantB
      pairLower rfl rfl,
    by decide, by decide⟩

/-- C4: address matching is case-sensitive strict string equality: a
transaction whose `to` is the checksummed form of the pair address — equal
to the lowercased `PAIR_ADDRESS` up to letter case but not character for
character — with an empty logs array, is rejected. -/
theorem transactionIsRelatedToPair_case_sensitive :
    transactionIsRelatedToPair checksummedTx pairLower = false ∧
      toLowerCase pairChecksummed = pairLower ∧ pairChecksummed ≠ pairLower := by
  refine ⟨by decide, by decide, by decide⟩

/-- C5: `approveTokenToRouter` sends `approve` — and then for the maximal
amount `2^256 - 1` — exactly when the balance is nonzero and the allowance
is strictly below it; a zero balance makes it report the error and exit
the process without approving, and an allowance at least the balance makes
it return without sending anything. -/
theorem approveTokenToRouter_spec (balance allowance : Nat) :
    (approveTokenToRouter balance allowance =
        ApproveAction.sendApprove (2 ^ 256 - 1) ↔
      balance ≠ 0 ∧ allowance < balance) ∧
      (balance = 0 →
        approveTokenToRouter balance allowance = ApproveAction.exitProcess 1) ∧
      (balance ≠ 0 → balance ≤ allowance →
        approveTokenToRouter balance allowance = ApproveAction.alreadyApproved) := by
  unfold approveTokenToRouter
  refine ⟨?_, ?_, ?_⟩
  · constructor
    · intro h
      by_cases h0 : balance = 0
      · simp [h0] at h
      · by_cases hge : allowance ≥ balance
        · simp [h0, hge] at h
        · exact ⟨h0, lt_of_not_ge hge⟩
    · rintro ⟨h0, hlt⟩
      simp [h0, not_le.mpr hlt]
  · intro h0
    simp [h0]
  · intro h0 hle
    simp [h0, hle]

/-- Witness for C5 at balance 5, allowance 3: the run sends
`approve(router, 2^256 - 1)`. -/
theorem approveTokenToRouter_spec_witness :
    approveTokenToRouter 5 3 = ApproveAction.sendApprove (2 ^ 256 - 1) :=
  (approveTokenToRouter_spec 5 3).1.mpr (by decide)

end MevShareTutorial

namespace DocsBundle

/-- A JavaScript value as it occurs in the bundle chunk
`4c4ecbe6.b82ca909.js`: `undefined`, `null`, strings, booleans, arrays and
plain objects (own enumerable string-keyed properties, in insertion
order). -/
inductive JSValue where
  | undef
  | null
  | str (s : String)
  | boolean (b : Bool)
  | arr (elems : List JSValue)
  | obj (fields : List (String × JSValue))

/-- A JavaScript object: its own enumerable properties in order. -/
abbrev JSObject := List (String × JSValue)

/-- Property access `o[k]`: the stored value, or `undefined` when the key
is absent. -/
def jsGet (o : JSObject) (k : String) : JSValue :=
  match o.lookup k with
  | some v => v
  | none => JSValue.undef

/-- Property assignment `o[k] = v`: overwrite in place when the key
exists, append otherwise. -/
def setProp (o : JSObject) (k : String) (v : JSValue) : JSObject :=
  if o.any (fun kv => kv.1 == k) then
    o.map (fun kv => if kv.1 == k then (k, v) else kv)
  else o ++ [(k, v)]

/-- The `Object.assign`-style merge performed by the bundle helper
`extends` (module 7462 `Z`): copy each own property of `src` onto `dst`,
later keys overwriting earlier ones. -/
def jsAssign (dst src : JSObject) : JSObject :=
  src.foldl (fun acc kv => setProp acc kv.1 kv.2) dst

/-- The bundle helper `objectWithoutProperties` (module 3366 `Z`): the
object without the excluded keys. -/
def objectWithoutProperties (o : JSObject) (excluded : List String) : JSObject :=
  o.filter (fun kv => !(excluded.contains kv.1))

/-- A React element tree as built by `react.createElement` calls in the
bundle: a text node, or an element with a type, a props object and
children. -/
inductive ReactElement where
  | text (s : String)
  | elem (type : String) (props : JSObject) (children : List ReactElement)

/-- `react.createElement` restricted to what the chunk builds: element
type, props object, children. -/
def createElement (t : String) (props : JSObject)
    (children : List ReactElement) : ReactElement :=
  ReactElement.elem t props children

/-- The MDX element factory `kt` (module 3905 export `m`), in the case the
page module exercises: the type argument is a string, so it copies the
props object, sets `originalType` and `mdxType` to that string, and
creates an `MDXCreateElement` with the same children. -/
def kt (e : String) (t : Option JSObject)
    (children : List ReactElement) : ReactElement :=
  createElement "MDXCreateElement"
    (jsAssign (jsAssign [] (t.getD []))
      [("originalType", JSValue.str e), ("mdxType", JSValue.str e)])
    children

namespace Module5449

/-- Module 5449 constant `a`: the prop keys the page component strips. -/
def a : List String := ["components"]

/-- Module 5449 export `frontMatter` (constant `c`). -/
def c : JSObject := [("title", JSValue.str "code of conduct")]

/-- Module 5449 export `toc` (constant `u`). -/
def u : JSValue :=
  JSValue.arr [JSValue.obj
    [("value", JSValue.str "Contributor Covenant Code of Conduct"),
      ("id", JSValue.str "contributor-covenant-code-of-conduct"),
      ("children", JSValue.arr [])]]

/-- Module 5449 constant `p`, the layout props merged into the wrapper. -/
def p : JSObject := [("toc", u)]

/-- The static children of the wrapper element in module 5449's default
export `d`: the code-of-conduct page content, transcribed call for call
from the chunk's `(0,r.kt)(...)` argument list. -/
def pageChildren : List ReactElement := [
  kt "p" none [
    ReactElement.text "At Flashbots we contribute with the larger free software community to illuminate the dark forest."],
  kt "p" none [
    ReactElement.text "You are welcome here <3."],
  kt "p" none [
    ReactElement.text "We just ask you to be nice. Please start by reading our code of conduct."],
  kt "h3" (some [("id", JSValue.str "contributor-covenant-code-of-conduct")]) [
    ReactElement.text "Contributor Covenant Code of Conduct"],
  kt "h4" (some [("id", JSValue.str "our-pledge")]) [
    ReactElement.text "Our Pledge"],
  kt "p" none [
    ReactElement.text "We as members, contributors, and leaders pledge to make participation in our\ncommunity a harassment-free experience for everyone, regardless of age, body\nsize, visible or invisible disability, ethnicity, sex characteristics, gender\nidentity and expression, level of experience, education, socio-economic status,\nnationality, personal appearance, race, caste, color, religion, or sexual\nidentity and orientation."],
  kt "p" none [
    ReactElement.text "We pledge to act and interact in ways that contribute to an open, welcoming,\ndiverse, inclusive, and healthy community."],
  kt "h4" (some [("id", JSValue.str "our-standards")]) [
    ReactElement.text "Our Standards"],
  kt "p" none [
    ReactElement.text "Examples of behavior that contributes to a positive environment for our\ncommunity include:"],
  kt "ul" none [
    kt "li" (some [("parentName", JSValue.str "ul")]) [
      ReactElement.text "Demonstrating empathy and kindness toward other people"],
    kt "li" (some [("parentName", JSValue.str "ul")]) [
      ReactElement.text "Being respectful of differing opinions, viewpoints, and experiences"],
    kt "li" (some [("parentName", JSValue.str "ul")]) [
      ReactElement.text "Giving and gracefully accepting constructive feedback"],
    kt "li" (some [("parentName", JSValue.str "ul")]) [
      ReactElement.text "Accepting responsibility and apologizing to those affected by our mistakes,\nand learning from the experience"],
    kt "li" (some [("parentName", JSValue.str "ul")]) [
      ReactElement.text "Focusing on what is best not just for us as individuals, but for the overall\ncommunity"]],
  kt "p" none [
    ReactElement.text "Examples of unacceptable behavior include:"],
  kt "ul" none [
    kt "li" (some [("parentName", JSValue.str "ul")]) [
      ReactElement.text "The use of sexualized language or imagery, and sexual attention or advances of\nany kind"],
    kt "li" (some [("parentName", JSValue.str "ul")]) [
      ReactElement.text "Trolling, insulting or derogatory comments, and personal or political attacks"],
    kt "li" (some [("parentName", JSValue.str "ul")]) [
      ReactElement.text "Public or private harassment"],
    kt "li" (some [("parentName", JSValue.str "ul")]) [
      ReactElement.text "Publishing others\x27 private information, such as a physical or email address,\nwithout their explicit permission"],
    kt "li" (some [("parentName", JSValue.str "ul")]) [
      ReactElement.text "Other conduct which could reasonably be considered inappropriate in a\nprofessional setting"]],
  kt "h4" (some [("id", JSValue.str "enforcement-responsibilities")]) [
    ReactElement.text "Enforcement Responsibilities"],
  kt "p" none [
    ReactElement.text "Community leaders are responsible for clarifying and enforcing our standards of\nacceptable behavior and will take appropriate and fair corrective action in\nresponse to any behavior that they deem inappropriate, threatening, offensive,\nor harmful."],
  kt "p" none [
    ReactElement.text "Community leaders have the right and responsibility to remove, edit, or reject\ncomments, commits, code, wiki edits, issues, and other contributions that are\nnot aligned to this Code of Conduct, and will communicate reasons for moderation\ndecisions when appropriate."],
  kt "h4" (some [("id", JSValue.str "scope")]) [
    ReactElement.text "Scope"],
  kt "p" none [
    ReactElement.text "This Code of Conduct applies within all community spaces, and also applies when\nan individual is officially representing the community in public spaces.\nExamples of representing our community include using an official e-mail address,\nposting via an official social media account, or acting as an appointed\nrepresentative at an online or offline event."],
  kt "h4" (some [("id", JSValue.str "enforcement")]) [
    ReactElement.text "Enforcement"],
  kt "p" none [
    ReactElement.text "Instances of abusive, harassing, or otherwise unacceptable behavior may be\nreported to the community leaders responsible for enforcement writing an\nemail to ",
    kt "a" (some [("parentName", JSValue.str "p"), ("href", JSValue.str "mailto:leo@flashbots.net")]) [
      ReactElement.text "leo@flashbots.net"],
    ReactElement.text " or contacting elopio#8526 in\n",
    kt "a" (some [("parentName", JSValue.str "p"), ("href", JSValue.str "https://discord.com/invite/7hvTycdNcK")]) [
      ReactElement.text "Discord"],
    ReactElement.text ".\nAll complaints will be reviewed and investigated promptly and fairly."],
  kt "p" none [
    ReactElement.text "All community leaders are obligated to respect the privacy and security of the\nreporter of any incident."],
  kt "h4" (some [("id", JSValue.str "enforcement-guidelines")]) [
    ReactElement.text "Enforcement Guidelines"],
  kt "p" none [
    ReactElement.text "Community leaders will follow these Community Impact Guidelines in determining\nthe consequences for any action they deem in violation of this Code of Conduct:"],
  kt "h5" (some [("id", JSValue.str "1-correction")]) [
    ReactElement.text "1. Correction"],
  kt "p" none [
    kt "strong" (some [("parentName", JSValue.str "p")]) [
      ReactElement.text "Community Impact"],
    ReactElement.text ": Use of inappropriate language or other behavior deemed\nunprofessional or unwelcome in the community."],
  kt "p" none [
    kt "strong" (some [("parentName", JSValue.str "p")]) [
      ReactElement.text "Consequence"],
    ReactElement.text ": A private, written warning from community leaders, providing\nclarity around the nature of the violation and an explanation of why the\nbehavior was inappropriate. A public apology may be requested."],
  kt "h5" (some [("id", JSValue.str "2-warning")]) [
    ReactElement.text "2. Warning"],
  kt "p" none [
    kt "strong" (some [("parentName", JSValue.str "p")]) [
      ReactElement.text "Community Impact"],
    ReactElement.text ": A violation through a single incident or series of\nactions."],
  kt "p" none [
    kt "strong" (some [("parentName", JSValue.str "p")]) [
      ReactElement.text "Consequence"],
    ReactElement.text ": A warning with consequences for continued behavior. No\ninteraction with the people involved, including unsolicited interaction with\nthose enforcing the Code of Conduct, for a specified period of time. This\nincludes avoiding interactions in community spaces as well as external channels\nlike social media. Violating these terms may lead to a temporary or permanent\nban."],
  kt "h5" (some [("id", JSValue.str "3-temporary-ban")]) [
    ReactElement.text "3. Temporary Ban"],
  kt "p" none [
    kt "strong" (some [("parentName", JSValue.str "p")]) [
      ReactElement.text "Community Impact"],
    ReactElement.text ": A serious violation of community standards, including\nsustained inappropriate behavior."],
  kt "p" none [
    kt "strong" (some [("parentName", JSValue.str "p")]) [
      ReactElement.text "Consequence"],
    ReactElement.text ": A temporary ban from any sort of interaction or public\ncommunication with the community for a specified period of time. No public or\nprivate interaction with the people involved, including unsolicited interaction\nwith those enforcing the Code of Conduct, is allowed during this period.\nViolating these terms may lead to a permanent ban."],
  kt "h5" (some [("id", JSValue.str "4-permanent-ban")]) [
    ReactElement.text "4. Permanent Ban"],
  kt "p" none [
    kt "strong" (some [("parentName", JSValue.str "p")]) [
      ReactElement.text "Community Impact"],
    ReactElement.text ": Demonstrating a pattern of violation of community\nstandards, including sustained inappropriate behavior, harassment of an\nindividual, or aggression toward or disparagement of classes of individuals."],
  kt "p" none [
    kt "strong" (some [("parentName", JSValue.str "p")]) [
      ReactElement.text "Consequence"],
    ReactElement.text ": A permanent ban from any sort of public interaction within the\ncommunity."],
  kt "h4" (some [("id", JSValue.str "attribution")]) [
    ReactElement.text "Attribution"],
  kt "p" none [
    ReactElement.text "This Code of Conduct is adapted from the ",
    kt "a" (some [("parentName", JSValue.str "p"), ("href", JSValue.str "https://www.contributor-covenant.org")]) [
      ReactElement.text "Contributor Covenant"],
    ReactElement.text ",\nversion 2.1, available at\n",
    kt "a" (some [("parentName", JSValue.str "p"), ("href", JSValue.str "https://www.contributor-covenant.org/version/2/1/code_of_conduct.html")]) [
      ReactElement.text "https://www.contributor-covenant.org/version/2/1/code_of_conduct.html"],
    ReactElement.text "."],
  kt "p" none [
    ReactElement.text "Community Impact Guidelines were inspired by\n",
    kt "a" (some [("parentName", JSValue.str "p"), ("href", JSValue.str "https://github.com/mozilla/diversity")]) [
      ReactElement.text "Mozilla\x27s code of conduct enforcement ladder"],
    ReactElement.text "."],
  kt "p" none [
    ReactElement.text "For answers to common questions about this code of conduct, see the FAQ at\n",
    kt "a" (some [("parentName", JSValue.str "p"), ("href", JSValue.str "https://www.contributor-covenant.org/faq")]) [
      ReactElement.text "https://www.contributor-covenant.org/faq"],
    ReactElement.text ". Translations are available at\n",
    kt "a" (some [("parentName", JSValue.str "p"), ("href", JSValue.str "https://www.contributor-covenant.org/translations")]) [
      ReactElement.text "https://www.contributor-covenant.org/translations"],
    ReactElement.text "."]
]

/-- Module 5449's default export `d`, the MDX page component:
`var t = e.components; var n = objectWithoutProperties(e, a);`
`return kt("wrapper", extends(\x7b\x7d, p, n, \x7bcomponents: t, mdxType: "MDXLayout"\x7d), ...pageChildren)`.
It is a function of its props object `e` alone; the embedding gives it no
other parameter because the source reads no other state. -/
def d (e : JSObject) : ReactElement :=
  let t := jsGet e "components"
  let n := objectWithoutProperties e a
  kt "wrapper"
    (some (jsAssign (jsAssign (jsAssign [] p) n)
      [("components", t), ("mdxType", JSValue.str "MDXLayout")]))
    pageChildren

end Module5449

/-- The children list of an element tree node. -/
def childrenOf : ReactElement → List ReactElement
  | ReactElement.text _ => []
  | ReactElement.elem _ _ children => children

/-- A sample props object for the page component: a components map plus an
extra pass-through prop. -/
def sampleProps : JSObject :=
  [("components", JSValue.obj []), ("className", JSValue.str "docs-page")]

/-- C6: the code-of-conduct page is static: the default export `d` of
bundle module 5449 is a pure function of its props object — equal props
give equal element trees — and the content it renders is the fixed
`pageChildren` tree whatever the props are, reflecting that the component
reads nothing but its argument and mutates nothing (the embedding is a
state-free function translated from the module body). -/
theorem mdxPage_static (e₁ e₂ : JSObject) (h : e₁ = e₂) :
    Module5449.d e₁ = Module5449.d e₂ ∧
      childrenOf (Module5449.d e₁) = Module5449.pageChildren := by
  subst h
  exact ⟨rfl, rfl⟩

/-- Witness for C6 at a concrete props object. -/
theorem mdxPage_static_witness :
    Module5449.d sampleProps = Module5449.d sampleProps ∧
      childrenOf (Module5449.d sampleProps) = Module5449.pageChildren :=
  mdxPage_static sampleProps sampleProps rfl

end DocsBundle
